import Mathlib

/-!
Verification development for the evcc-homewizard-v2 Go client library.

The definitions below are a shallow embedding of the repository's code:

* `pairing/pairing.go` — the pairing orchestrator (`pairDeviceWithContext`,
  `requestToken`, `isButtonPressRequired`, `pairDevicesParallel`,
  `PairSingleDevice`, `DiscoverAndPairDevices`).
* `device/*.go` — the meter device adapters (`baseMeterDevice`,
  `P1MeterDevice`, `KWHMeterDevice`) together with the freshness cache
  (`util.Monitor`) and the streaming connection's `Send`, both of which are
  external collaborators modelled from the specification's interface
  description.

Go `float64` fields are modelled as `ℚ` (the claims under scrutiny concern
only which fields are read, summed and negated, never rounding), Go `int`
as `ℤ`, and real time as natural-number seconds.  The `select` loop of
`pairDeviceWithContext` is modelled as a deterministic loop driven by the
number of 5-second ticks that fit into the 3-minute context deadline.
-/

namespace HomeWizard

/-! ### Pairing: server responses and request errors (pairing/pairing.go) -/

/-- Outcome of one `POST /api/user` token request as seen by the client:
either HTTP 200 with a token, a non-200 HTTP status with a body
(`httpError` in the source), or a transport-level client error. -/
inductive TokenResponse where
  | ok (token : String)
  | httpError (status : Nat) (body : String)
  | clientError (msg : String)
deriving DecidableEq, Repr

/-- Error returned by `requestToken`: either a typed `httpError` carrying
the status code and body, or any other (transport/encode) error. -/
inductive ReqError where
  | http (status : Nat) (body : String)
  | net (msg : String)
deriving DecidableEq, Repr

/-- `requestToken` (pairing.go): a 200 response yields the decoded token,
a non-200 response yields `&httpError{StatusCode, Body}`, and a
transport error is returned as-is. -/
def requestToken (resp : TokenResponse) : Except ReqError String :=
  match resp with
  | .ok tok => .ok tok
  | .httpError s b => .error (.http s b)
  | .clientError m => .error (.net m)

/-- `isButtonPressRequired` (pairing.go): true exactly when the error is an
`httpError` with status 403 (`http.StatusForbidden`). -/
def isButtonPressRequired (e : ReqError) : Bool :=
  match e with
  | .http s _ => s == 403
  | .net _ => false

/-- Result of one pairing run: a token, a fatal (non-retried) request
error, or the context-deadline timeout. -/
inductive PairOutcome where
  | success (token : String)
  | fatal (e : ReqError)
  | timeout
deriving DecidableEq, Repr

/-- Ticker interval of the pairing poll loop, in seconds
(`time.NewTicker(5 * time.Second)`). -/
def tickIntervalSec : Nat := 5

/-- Context deadline of a pairing run, in seconds
(`context.WithTimeout(..., 3*time.Minute)`). -/
def ctxTimeoutSec : Nat := 180

/-- Number of ticker ticks the 3-minute deadline admits: one attempt per
5-second tick, 36 in total (the `attempt %d/36` budget). -/
def maxAttempts : Nat := ctxTimeoutSec / tickIntervalSec

/-- The `select` loop of `pairDeviceWithContext`.  `fuel` is the number of
ticker ticks still to be delivered before the context deadline fires;
on each tick the attempt counter is incremented, the progress callback
is invoked with the 1-based attempt number (recorded in `calls`), and
`requestToken` is issued.  A 403 (`isButtonPressRequired`) is retried on
the next tick; any other error is fatal; exhausting the ticks yields
`timeout`. -/
def pairLoop (responses : Nat → TokenResponse) :
    Nat → Nat → List Nat → PairOutcome × List Nat
  | 0, _, calls => (.timeout, calls)
  | fuel + 1, attempt, calls =>
    let a := attempt + 1
    let calls := calls ++ [a]
    match requestToken (responses a) with
    | .ok tok => (.success tok, calls)
    | .error e =>
      if isButtonPressRequired e then pairLoop responses fuel a calls
      else (.fatal e, calls)

/-- `pairDeviceWithContext` (pairing.go): run the poll loop against a given
server behaviour (`responses n` is the server's answer to the `n`-th
request).  Returns the outcome together with the list of attempt numbers
passed to the progress callback, in order. -/
def pairDeviceWithContext (responses : Nat → TokenResponse) :
    PairOutcome × List Nat :=
  pairLoop responses maxAttempts 0 []

/-- A server answer that signals pending authorization: HTTP 403 with some
body. -/
def isPending (r : TokenResponse) : Prop :=
  ∃ b, r = .httpError 403 b

/-! ### Name validation and the single/multi-device entry points -/

/-- One character admitted by the name pattern
`^[a-zA-Z0-9\-_/\\# ]{1,40}$` of pairing.go. -/
def isValidNameChar (c : Char) : Bool :=
  c.isAlpha || c.isDigit || c == '-' || c == '_' || c == '/' ||
    c == '\\' || c == '#' || c == ' '

/-- `namePattern.MatchString name` for the anchored pattern
`^[a-zA-Z0-9\-_/\\# ]{1,40}$`: between 1 and 40 characters, each drawn
from the class. -/
def validName (name : String) : Bool :=
  1 ≤ name.length && name.length ≤ 40 && name.toList.all isValidNameChar

/-- The specification's wording of the name rule: "1–40 characters drawn
from letters, digits, `- _ / \ #` and space". -/
def specNameRule (name : String) : Prop :=
  1 ≤ name.length ∧ name.length ≤ 40 ∧
    ∀ c ∈ name.toList,
      c.isAlpha = true ∨ c.isDigit = true ∨ c = '-' ∨ c = '_' ∨ c = '/' ∨
        c = '\\' ∨ c = '#' ∨ c = ' '

instance (name : String) : Decidable (specNameRule name) := by
  unfold specNameRule
  infer_instance

/-- Error taxonomy of the pairing entry points. -/
inductive PairError where
  | invalidName
  | noDevices
  | pairingFailed (o : PairOutcome)
deriving DecidableEq, Repr

/-- `PairSingleDevice` (pairing.go): validate the friendly name first and
fail with `invalidName` before any network request (empty call list);
otherwise run `pairDeviceWithContext` against the device.  The second
component is the list of attempt numbers reported, one per network
request made. -/
def PairSingleDevice (name : String) (responses : Nat → TokenResponse) :
    Except PairError String × List Nat :=
  if !validName name then (.error .invalidName, [])
  else
    match pairDeviceWithContext responses with
    | (.success t, calls) => (.ok t, calls)
    | (o, calls) => (.error (.pairingFailed o), calls)

/-- A device record produced by discovery (`discovery.DiscoveredDevice`). -/
structure DiscoveredDevice where
  host : String
  dtype : String
deriving DecidableEq, Repr

/-- `PairedDevice` (pairing.go): host, token and device type of a
successfully paired device. -/
structure PairedDevice where
  host : String
  token : String
  dtype : String
deriving DecidableEq, Repr

/-- The result-aggregation loop body of `pairDevicesParallel`: a status with
a non-empty token is appended to the paired list, anything else bumps
the failure count. -/
def pairStep (acc : List PairedDevice × Nat)
    (x : DiscoveredDevice × PairOutcome) : List PairedDevice × Nat :=
  match x.2 with
  | .success t =>
    if t ≠ "" then (acc.1 ++ [⟨x.1.host, t, x.1.dtype⟩], acc.2)
    else (acc.1, acc.2 + 1)
  | _ => (acc.1, acc.2 + 1)

/-- `pairDevicesParallel` (pairing.go): run `pairDeviceWithContext` for
every discovered device (device `i` talks to server behaviour
`responses i`), wait for all of them, then keep exactly the devices
whose status carries a non-empty token and count the rest as failures.
Returns the paired-device list and the failure count. -/
def pairDevicesParallel (devices : List DiscoveredDevice)
    (responses : Nat → Nat → TokenResponse) : List PairedDevice × Nat :=
  let statuses := ((List.range devices.length).zip devices).map
    (fun (i, d) => (d, (pairDeviceWithContext (responses i)).1))
  statuses.foldl pairStep ([], 0)

/-- `DiscoverAndPairDevices` (pairing.go): validate the name (before any
network activity), fail when discovery found nothing, otherwise pair all
discovered devices in parallel and return the paired list together with
the reported failure count. -/
def DiscoverAndPairDevices (name : String)
    (discovered : List DiscoveredDevice)
    (responses : Nat → Nat → TokenResponse) :
    Except PairError (List PairedDevice × Nat) :=
  if !validName name then .error .invalidName
  else if discovered.isEmpty then .error .noDevices
  else .ok (pairDevicesParallel discovered responses)

/-! ### Freshness cache and device adapters (device/*.go) -/

/-- Modelled from the spec: the freshness cache (`util.Monitor`, an
external collaborator) is a single-slot store of the most recent value
together with its write timestamp and a configured max-age; a read
succeeds only if `now - lastWriteTime ≤ maxAge`, and no data yet is
indistinguishable from expired data.  Time is in seconds. -/
structure Monitor (T : Type) where
  maxAge : Nat
  val : Option (T × Nat)

/-- Modelled from the spec: `Set` stores the value with a now-timestamp and
always succeeds. -/
def Monitor.set {T : Type} (m : Monitor T) (v : T) (now : Nat) : Monitor T :=
  { m with val := some (v, now) }

/-- Modelled from the spec: `Get` returns the stored value only while it is
fresh; otherwise it fails with the `Stale` condition (`.error ()`). -/
def Monitor.get {T : Type} (m : Monitor T) (now : Nat) : Except Unit T :=
  match m.val with
  | none => .error ()
  | some (v, t) => if now - t ≤ m.maxAge then .ok v else .error ()

/-- `CommonMeasurement` (base_meter.go): power, voltage and current data
common to all meter types, both the aggregate and the three per-line
fields. -/
structure CommonMeasurement where
  powerW : ℚ
  powerL1W : ℚ
  powerL2W : ℚ
  powerL3W : ℚ
  voltageV : ℚ
  voltageL1V : ℚ
  voltageL2V : ℚ
  voltageL3V : ℚ
  currentA : ℚ
  currentL1A : ℚ
  currentL2A : ℚ
  currentL3A : ℚ
deriving DecidableEq, Repr

/-- `P1Measurement`: common fields plus tariff-split import/export energy
totals. -/
structure P1Measurement where
  common : CommonMeasurement
  energyImportT1kWh : ℚ
  energyImportT2kWh : ℚ
  energyExportT1kWh : ℚ
  energyExportT2kWh : ℚ
deriving DecidableEq, Repr

/-- `KWHMeasurement`: common fields plus simple import/export energy
totals. -/
structure KWHMeasurement where
  common : CommonMeasurement
  energyImportkWh : ℚ
  energyExportkWh : ℚ
deriving DecidableEq, Repr

/-- Modelled from the spec: `BatteriesData` (declaration not under src/;
its fields are those read by `GetBatteryPowerLimits` and
`setBatteryModeHTTP`): battery limits and mode carried by a
`"batteries"` message or control response. -/
structure BatteriesData where
  maxConsumptionW : ℚ
  maxProductionW : ℚ
  mode : String
  powerW : ℚ
deriving DecidableEq, Repr

/-- Errors surfaced by device accessors: the generic timeout condition
(`api.ErrTimeout`). -/
inductive DevError where
  | timeout
deriving DecidableEq, Repr

/-- `baseMeterDevice[T]` (base_meter.go): the measurement freshness cache
of a meter device. -/
structure BaseMeterDevice (T : Type) where
  measurement : Monitor T

/-- `baseMeterDevice.GetMeasurement`: read the cache; a stale cache is
surfaced as `api.ErrTimeout`. -/
def BaseMeterDevice.GetMeasurement {T : Type} (d : BaseMeterDevice T)
    (now : Nat) : Except DevError T :=
  match d.measurement.get now with
  | .error _ => .error .timeout
  | .ok m => .ok m

/-- `baseMeterDevice.GetPower`: total power, sign-inverted when
`invertForPV` is set.  `gc` is the `GetCommon()` projection of the
measurement type. -/
def BaseMeterDevice.GetPower {T : Type} (gc : T → CommonMeasurement)
    (d : BaseMeterDevice T) (invertForPV : Bool) (now : Nat) :
    Except DevError ℚ :=
  match d.GetMeasurement now with
  | .error e => .error e
  | .ok m =>
    let power := (gc m).powerW
    .ok (if invertForPV then -power else power)

/-- `baseMeterDevice.GetPhasePowers`: `(totalPower, 0, 0)` when
`phases == 1`, the three line powers otherwise; all three outputs are
negated when `invertForPV` is set. -/
def BaseMeterDevice.GetPhasePowers {T : Type} (gc : T → CommonMeasurement)
    (d : BaseMeterDevice T) (phases : Int) (invertForPV : Bool) (now : Nat) :
    Except DevError (ℚ × ℚ × ℚ) :=
  match d.GetMeasurement now with
  | .error e => .error e
  | .ok m =>
    let c := gc m
    let (p1, p2, p3) :=
      if phases = 1 then (c.powerW, 0, 0)
      else (c.powerL1W, c.powerL2W, c.powerL3W)
    .ok (if invertForPV then (-p1, -p2, -p3) else (p1, p2, p3))

/-- `baseMeterDevice.GetPhaseCurrents`: `(totalCurrent, 0, 0)` when
`phases == 1`, the three line currents otherwise. -/
def BaseMeterDevice.GetPhaseCurrents {T : Type} (gc : T → CommonMeasurement)
    (d : BaseMeterDevice T) (phases : Int) (now : Nat) :
    Except DevError (ℚ × ℚ × ℚ) :=
  match d.GetMeasurement now with
  | .error e => .error e
  | .ok m =>
    let c := gc m
    if phases = 1 then .ok (c.currentA, 0, 0)
    else .ok (c.currentL1A, c.currentL2A, c.currentL3A)

/-- `baseMeterDevice.GetPhaseVoltages`: `(voltage, 0, 0)` when
`phases == 1`, the three line voltages otherwise. -/
def BaseMeterDevice.GetPhaseVoltages {T : Type} (gc : T → CommonMeasurement)
    (d : BaseMeterDevice T) (phases : Int) (now : Nat) :
    Except DevError (ℚ × ℚ × ℚ) :=
  match d.GetMeasurement now with
  | .error e => .error e
  | .ok m =>
    let c := gc m
    if phases = 1 then .ok (c.voltageV, 0, 0)
    else .ok (c.voltageL1V, c.voltageL2V, c.voltageL3V)

/-! ### Inbound messages and handlers -/

/-- A raw message payload (`json.RawMessage`): either a well-formed
encoding of one of the record shapes, or malformed data. -/
inductive RawMessage where
  | p1 (m : P1Measurement)
  | kwh (m : KWHMeasurement)
  | bat (b : BatteriesData)
  | malformed (s : String)
deriving DecidableEq, Repr

/-- `json.Unmarshal` into a `P1Measurement`. -/
def decodeP1 (r : RawMessage) : Except String P1Measurement :=
  match r with
  | .p1 m => .ok m
  | _ => .error "cannot unmarshal"

/-- `json.Unmarshal` into a `KWHMeasurement`. -/
def decodeKWH (r : RawMessage) : Except String KWHMeasurement :=
  match r with
  | .kwh m => .ok m
  | _ => .error "cannot unmarshal"

/-- `json.Unmarshal` into a `BatteriesData`. -/
def decodeBatteries (r : RawMessage) : Except String BatteriesData :=
  match r with
  | .bat b => .ok b
  | _ => .error "cannot unmarshal"

/-- `baseMeterDevice.handleMessage` (base_meter.go): a `"measurement"`
message is decoded (`decode` is `json.Unmarshal` at type `T`) and stored
in the measurement cache; `"device"` and `"system"` messages are
ignored; any other type is logged and ignored; decode failures are
reported as per-message errors. -/
def BaseMeterDevice.handleMessage {T : Type}
    (decode : RawMessage → Except String T) (d : BaseMeterDevice T)
    (msgType : String) (data : RawMessage) (now : Nat) :
    Except String (BaseMeterDevice T) :=
  if msgType = "measurement" then
    match decode data with
    | .error e => .error ("unmarshal meter measurement: " ++ e)
    | .ok m => .ok { d with measurement := d.measurement.set m now }
  else if msgType = "device" ∨ msgType = "system" then .ok d
  else .ok d

/-- Link state of the streaming connection. -/
inductive ConnState where
  | disconnected
  | connecting
  | connected
  | reconnecting
deriving DecidableEq, Repr

/-- Modelled from the spec: `Connection.Send` (connection code not under
src/) writes one outbound message if currently `Connected`; it fails
with a `NotConnected` condition otherwise and never queues. -/
def connSend (st : ConnState) : Except Unit Unit :=
  if st = .connected then .ok () else .error ()

/-- `P1MeterDevice` (meter_p1.go): a base meter device over
`P1Measurement` plus the batteries freshness cache, its streaming
connection state and host. -/
structure P1MeterDevice where
  base : BaseMeterDevice P1Measurement
  batteriesData : Monitor BatteriesData
  connSt : ConnState
  host : String

/-- `P1MeterDevice.handleP1Message`: a `"batteries"` message is decoded and
stored in the batteries cache; everything else is delegated to the base
handler. -/
def P1MeterDevice.handleP1Message (d : P1MeterDevice) (msgType : String)
    (data : RawMessage) (now : Nat) : Except String P1MeterDevice :=
  if msgType = "batteries" then
    match decodeBatteries data with
    | .error e => .error ("unmarshal batteries data: " ++ e)
    | .ok b => .ok { d with batteriesData := d.batteriesData.set b now }
  else
    match d.base.handleMessage decodeP1 msgType data now with
    | .error e => .error e
    | .ok base => .ok { d with base := base }

/-- `P1MeterDevice.GetPower`: total power, always grid convention, never
inverted. -/
def P1MeterDevice.GetPower (d : P1MeterDevice) (now : Nat) :
    Except DevError ℚ :=
  match d.base.GetMeasurement now with
  | .error e => .error e
  | .ok m => .ok m.common.powerW

/-- `P1MeterDevice.GetPhasePowers`: `(totalPower, 0, 0)` for one phase, the
three line powers otherwise; never inverted. -/
def P1MeterDevice.GetPhasePowers (d : P1MeterDevice) (phases : Int)
    (now : Nat) : Except DevError (ℚ × ℚ × ℚ) :=
  match d.base.GetMeasurement now with
  | .error e => .error e
  | .ok m =>
    let c := m.common
    if phases = 1 then .ok (c.powerW, 0, 0)
    else .ok (c.powerL1W, c.powerL2W, c.powerL3W)

/-- `P1MeterDevice.GetTotalEnergy`: the sum of the tariff-1 and the
tariff-2 import energies. -/
def P1MeterDevice.GetTotalEnergy (d : P1MeterDevice) (now : Nat) :
    Except DevError ℚ :=
  match d.base.GetMeasurement now with
  | .error e => .error e
  | .ok m => .ok (m.energyImportT1kWh + m.energyImportT2kWh)

/-- `P1MeterDevice.GetBatteryPowerLimits`: read the batteries cache; a
stale cache is surfaced as `api.ErrTimeout`; otherwise return
`(MaxConsumptionW, MaxProductionW)`. -/
def P1MeterDevice.GetBatteryPowerLimits (d : P1MeterDevice) (now : Nat) :
    Except DevError (ℚ × ℚ) :=
  match d.batteriesData.get now with
  | .error _ => .error .timeout
  | .ok b => .ok (b.maxConsumptionW, b.maxProductionW)

/-- `KWHMeterDevice` (meter_kwh.go): a base meter device over
`KWHMeasurement`. -/
structure KWHMeterDevice where
  base : BaseMeterDevice KWHMeasurement

/-- `KWHMeterDevice.GetTotalEnergy`: the export total when `usePVExport`
is set (production convention), the import total otherwise. -/
def KWHMeterDevice.GetTotalEnergy (d : KWHMeterDevice) (usePVExport : Bool)
    (now : Nat) : Except DevError ℚ :=
  match d.base.GetMeasurement now with
  | .error e => .error e
  | .ok m => .ok (if usePVExport then m.energyExportkWh else m.energyImportkWh)

/-! ### Battery-mode control (meter_p1.go) -/

/-- One externally visible control action taken by `SetBatteryMode`: the
in-band WebSocket send of the mode, or the fallback HTTP PUT of the
mode to a URL. -/
inductive ControlAction where
  | wsSend (mode : String)
  | httpPut (url : String) (mode : String)
deriving DecidableEq, Repr

/-- `P1MeterDevice.SetBatteryMode` composed with `setBatteryModeHTTP`:
first attempt the in-band control message over the streaming
connection; only if that send fails, fall back to an HTTP
`PUT https://<host>/api/batteries` carrying the same mode (`put url
mode` is the HTTP collaborator's answer).  Returns the call's result
together with the list of actions taken, in order. -/
def P1MeterDevice.SetBatteryMode (d : P1MeterDevice)
    (put : String → String → Except ReqError BatteriesData) (mode : String) :
    Except ReqError Unit × List ControlAction :=
  match connSend d.connSt with
  | .ok _ => (.ok (), [.wsSend mode])
  | .error _ =>
    let url := "https://" ++ d.host ++ "/api/batteries"
    match put url mode with
    | .ok _ => (.ok (), [.wsSend mode, .httpPut url mode])
    | .error e => (.error e, [.wsSend mode, .httpPut url mode])

/-! ### Lemmas about the pairing poll loop -/

/-- If every remaining request is answered with 403, the loop exhausts its
ticks, reports every attempt number and times out. -/
lemma pairLoop_timeout (r : Nat → TokenResponse) :
    ∀ (fuel attempt : Nat) (calls : List Nat),
      (∀ k, attempt < k → k ≤ attempt + fuel → isPending (r k)) →
      pairLoop r fuel attempt calls =
        (.timeout, calls ++ List.range' (attempt + 1) fuel)
  | 0, attempt, calls, _ => by simp [pairLoop]
  | fuel + 1, attempt, calls, h => by
    obtain ⟨b, hb⟩ := h (attempt + 1) (by omega) (by omega)
    have ih := pairLoop_timeout r fuel (attempt + 1) (calls ++ [attempt + 1])
      (fun k hk1 hk2 => h k (by omega) (by omega))
    simp only [pairLoop, hb, requestToken, isButtonPressRequired]
    rw [if_pos (by simp)]
    rw [ih, List.range'_succ]
    simp

/-- If the requests strictly before the `n`-th are answered with 403 and the
`n`-th (still within the tick budget) returns a token, the loop succeeds
with that token after reporting attempts `attempt+1 .. n`. -/
lemma pairLoop_success (r : Nat → TokenResponse) (t : String) :
    ∀ (fuel attempt : Nat) (calls : List Nat) (n : Nat),
      attempt < n → n ≤ attempt + fuel →
      (∀ k, attempt < k → k < n → isPending (r k)) →
      r n = .ok t →
      pairLoop r fuel attempt calls =
        (.success t, calls ++ List.range' (attempt + 1) (n - attempt))
  | 0, attempt, _, n, hlt, hle, _, _ => by omega
  | fuel + 1, attempt, calls, n, hlt, hle, h, hn => by
    rcases Nat.eq_or_lt_of_le (Nat.succ_le_of_lt hlt) with heq | hlt'
    · subst heq
      simp only [pairLoop, hn, requestToken]
      rw [show attempt + 1 - attempt = 1 from by omega, List.range'_one]
    · obtain ⟨b, hb⟩ := h (attempt + 1) (by omega) (by omega)
      have ih := pairLoop_success r t fuel (attempt + 1) (calls ++ [attempt + 1])
        n (by omega) (by omega) (fun k hk1 hk2 => h k (by omega) hk2) hn
      simp only [pairLoop, hb, requestToken, isButtonPressRequired]
      rw [if_pos (by simp)]
      rw [ih, show n - attempt = (n - (attempt + 1)) + 1 from by omega,
        List.range'_succ]
      simp

/-- If the requests strictly before the `n`-th are answered with 403 and the
`n`-th (still within the tick budget) is rejected with a status other
than 403, the loop fails fatally right there. -/
lemma pairLoop_fatal (r : Nat → TokenResponse) (s : Nat) (b : String) :
    ∀ (fuel attempt : Nat) (calls : List Nat) (n : Nat),
      attempt < n → n ≤ attempt + fuel →
      (∀ k, attempt < k → k < n → isPending (r k)) →
      r n = .httpError s b → s ≠ 403 →
      pairLoop r fuel attempt calls =
        (.fatal (.http s b), calls ++ List.range' (attempt + 1) (n - attempt))
  | 0, attempt, _, n, hlt, hle, _, _, _ => by omega
  | fuel + 1, attempt, calls, n, hlt, hle, h, hn, hs => by
    rcases Nat.eq_or_lt_of_le (Nat.succ_le_of_lt hlt) with heq | hlt'
    · subst heq
      simp only [pairLoop, hn, requestToken, isButtonPressRequired]
      rw [if_neg (by simp [hs])]
      rw [show attempt + 1 - attempt = 1 from by omega, List.range'_one]
    · obtain ⟨b', hb'⟩ := h (attempt + 1) (by omega) (by omega)
      have ih := pairLoop_fatal r s b fuel (attempt + 1) (calls ++ [attempt + 1])
        n (by omega) (by omega) (fun k hk1 hk2 => h k (by omega) hk2) hn hs
      simp only [pairLoop, hb', requestToken, isButtonPressRequired]
      rw [if_pos (by simp)]
      rw [ih, show n - attempt = (n - (attempt + 1)) + 1 from by omega,
        List.range'_succ]
      simp

lemma maxAttempts_eq : maxAttempts = 36 := by
  norm_num [maxAttempts, ctxTimeoutSec, tickIntervalSec]

/-- C1: every pairing run of `pairDeviceWithContext` polls on a fixed
5-second interval with a 3-minute budget admitting 36 attempts; the
progress callback receives the 1-based attempt number of every attempt;
a run answered 403 on every attempt before the 36th and a token on the
36th succeeds and its last reported attempt number is 36; a run whose
budget is exhausted without a token yields the Timeout condition. -/
theorem pairing_interval_budget_spec (r r2 : Nat → TokenResponse)
    (t : String)
    (h1 : ∀ k, 1 ≤ k → k ≤ 35 → isPending (r k))
    (h2 : r 36 = .ok t)
    (h3 : ∀ k, 1 ≤ k → k ≤ 36 → isPending (r2 k)) :
    tickIntervalSec = 5 ∧ ctxTimeoutSec = 180 ∧ maxAttempts = 36 ∧
    pairDeviceWithContext r = (.success t, List.range' 1 36) ∧
    pairDeviceWithContext r2 = (.timeout, List.range' 1 36) := by
  refine ⟨rfl, rfl, maxAttempts_eq, ?_, ?_⟩
  · show pairLoop r maxAttempts 0 [] = _
    rw [maxAttempts_eq,
      pairLoop_success r t 36 0 [] 36 (by omega) (by omega)
        (fun k hk1 hk2 => h1 k (by omega) (by omega)) h2]
    simp
  · show pairLoop r2 maxAttempts 0 [] = _
    rw [maxAttempts_eq,
      pairLoop_timeout r2 36 0 [] (fun k hk1 hk2 => h3 k (by omega) (by omega))]
    simp

/-- Witness for C1 at concrete server behaviours: 403 thirty-five times then
a token, and 403 throughout. -/
theorem pairing_interval_budget_spec_witness :
    tickIntervalSec = 5 ∧ ctxTimeoutSec = 180 ∧ maxAttempts = 36 ∧
    pairDeviceWithContext
        (fun k => if k = 36 then .ok "tok" else .httpError 403 "pending")
      = (.success "tok", List.range' 1 36) ∧
    pairDeviceWithContext (fun _ => .httpError 403 "pending")
      = (.timeout, List.range' 1 36) :=
  pairing_interval_budget_spec
    (fun k => if k = 36 then .ok "tok" else .httpError 403 "pending")
    (fun _ => .httpError 403 "pending") "tok"
    (fun k _ hk2 => ⟨"pending", by
      simp only []
      rw [if_neg (by omega)]⟩)
    (by norm_num)
    (fun k _ _ => ⟨"pending", rfl⟩)

/-- C2: during a pairing attempt a 403 rejection is retried transparently on
the next poll, while a rejection with any other non-200 status fails the
attempt immediately as a fatal error, after exactly that one request. -/
theorem pairing_403_retry_fatal_spec (r1 r2 : Nat → TokenResponse)
    (s : Nat) (b pend t : String)
    (hs : s ≠ 403)
    (h1 : r1 1 = .httpError s b)
    (h2a : r2 1 = .httpError 403 pend) (h2b : r2 2 = .ok t) :
    pairDeviceWithContext r1 = (.fatal (.http s b), [1]) ∧
    pairDeviceWithContext r2 = (.success t, [1, 2]) := by
  constructor
  · show pairLoop r1 maxAttempts 0 [] = _
    rw [maxAttempts_eq,
      pairLoop_fatal r1 s b 36 0 [] 1 (by omega) (by omega)
        (fun k hk1 hk2 => absurd hk2 (by omega)) h1 hs]
    simp
  · show pairLoop r2 maxAttempts 0 [] = _
    rw [maxAttempts_eq,
      pairLoop_success r2 t 36 0 [] 2 (by omega) (by omega)
        (fun k hk1 hk2 => ⟨pend, by rw [show k = 1 from by omega, h2a]⟩) h2b]
    simp [List.range']

/-- Witness for C2 at concrete server behaviours: a 500 on the first request,
and a 403 then a token. -/
theorem pairing_403_retry_fatal_spec_witness :
    pairDeviceWithContext (fun _ => .httpError 500 "boom")
      = (.fatal (.http 500 "boom"), [1]) ∧
    pairDeviceWithContext
        (fun k => if k = 1 then .httpError 403 "pending" else .ok "tok")
      = (.success "tok", [1, 2]) :=
  pairing_403_retry_fatal_spec (fun _ => .httpError 500 "boom")
    (fun k => if k = 1 then .httpError 403 "pending" else .ok "tok")
    500 "boom" "pending" "tok" (by omega) rfl
    (by norm_num) (by norm_num)

/-! ### Name validation lemmas -/

lemma validName_iff (n : String) : validName n = true ↔ specNameRule n := by
  simp only [validName, specNameRule, Bool.and_eq_true, decide_eq_true_eq,
    List.all_eq_true, isValidNameChar, Bool.or_eq_true, beq_iff_eq]
  constructor
  · rintro ⟨⟨h1, h40⟩, hall⟩
    exact ⟨h1, h40, fun c hc => by have := hall c hc; tauto⟩
  · rintro ⟨h1, h40, hall⟩
    exact ⟨⟨h1, h40⟩, fun c hc => by have := hall c hc; tauto⟩

lemma validName_of_at (n : String) (h : '@' ∈ n.toList) :
    validName n = false := by
  rw [Bool.eq_false_iff, Ne, validName_iff]
  intro rule
  rcases rule.2.2 '@' h with d | d | d | d | d | d | d | d <;>
    exact absurd d (by decide)

/-- C3: `PairSingleDevice` and `DiscoverAndPairDevices` accept a friendly
name exactly when it is 1 to 40 characters drawn from letters, digits,
`-`, `_`, `/`, `\`, `#` and space; a failing name (the empty string, a
41-character string, any string containing `@`) is rejected with the
InvalidName condition before any network call (no token request is
issued, whatever the network would have answered). -/
theorem name_validation_spec (good bad withAt : String)
    (responses : Nat → TokenResponse)
    (devs : List DiscoveredDevice) (rs : Nat → Nat → TokenResponse)
    (hgood : specNameRule good) (hbad : ¬ specNameRule bad)
    (hat : '@' ∈ withAt.toList) :
    validName good = true ∧
    validName bad = false ∧
    PairSingleDevice bad responses = (.error .invalidName, []) ∧
    DiscoverAndPairDevices bad devs rs = .error .invalidName ∧
    validName withAt = false ∧
    validName "" = false ∧
    validName (String.mk (List.replicate 41 'a')) = false := by
  have hb : validName bad = false := by
    rw [Bool.eq_false_iff, Ne, validName_iff]; exact hbad
  refine ⟨(validName_iff good).mpr hgood, hb, ?_, ?_,
    validName_of_at withAt hat, by decide, by decide⟩
  · simp [PairSingleDevice, hb]
  · simp [DiscoverAndPairDevices, hb]

/-- Witness for C3 at concrete names: `"Charger 1"` is accepted,
`"bad@name"` is rejected with no network call. -/
theorem name_validation_spec_witness :
    validName "Charger 1" = true ∧
    validName "bad@name" = false ∧
    PairSingleDevice "bad@name" (fun _ => .ok "tok")
      = (.error .invalidName, []) ∧
    DiscoverAndPairDevices "bad@name" [⟨"h", "p1meter"⟩]
      (fun _ _ => .ok "tok") = .error .invalidName ∧
    validName "bad@name" = false ∧
    validName "" = false ∧
    validName (String.mk (List.replicate 41 'a')) = false :=
  name_validation_spec "Charger 1" "bad@name" "bad@name"
    (fun _ => .ok "tok") [⟨"h", "p1meter"⟩] (fun _ _ => .ok "tok")
    (by decide) (by decide) (by decide)

/-! ### Batch pairing lemmas -/

lemma pairStep_len (acc : List PairedDevice × Nat)
    (x : DiscoveredDevice × PairOutcome) :
    (pairStep acc x).1.length + (pairStep acc x).2
      = acc.1.length + acc.2 + 1 := by
  unfold pairStep
  rcases x with ⟨d, o⟩
  rcases o with t | e | _
  · by_cases h : t ≠ "" <;> simp [h] <;> omega
  · simp; omega
  · simp; omega

lemma foldl_pairStep_len (l : List (DiscoveredDevice × PairOutcome)) :
    ∀ acc : List PairedDevice × Nat,
      (l.foldl pairStep acc).1.length + (l.foldl pairStep acc).2
        = acc.1.length + acc.2 + l.length := by
  induction l with
  | nil => intro acc; simp
  | cons x xs ih =>
    intro acc
    simp only [List.foldl_cons, List.length_cons]
    rw [ih (pairStep acc x), pairStep_len]
    omega

/-- C4: in a batch pairing run a per-device failure does not abort the
sibling devices; every attempt is resolved and the result keeps exactly
the devices whose attempts produced a token, with the others reported
only as a failure count.  In the 3-device scenario where device 2 is
rejected with a non-403 status (e.g. 500) on its first poll while
devices 1 and 3 obtain tokens, the result is the two paired devices and
a failure count of 1; in general, paired plus failed accounts for every
device. -/
theorem batch_pairing_spec (d1 d2 d3 : DiscoveredDevice)
    (rs rsAny : Nat → Nat → TokenResponse)
    (devsAny : List DiscoveredDevice)
    (t1 t3 b : String) (s : Nat)
    (ht1 : t1 ≠ "") (ht3 : t3 ≠ "") (hs : s ≠ 403)
    (h1 : rs 0 1 = .ok t1) (h2 : rs 1 1 = .httpError s b)
    (h3 : rs 2 1 = .ok t3) :
    pairDevicesParallel [d1, d2, d3] rs
      = ([⟨d1.host, t1, d1.dtype⟩, ⟨d3.host, t3, d3.dtype⟩], 1) ∧
    (pairDevicesParallel devsAny rsAny).1.length
        + (pairDevicesParallel devsAny rsAny).2
      = devsAny.length := by
  constructor
  · have e0 : pairDeviceWithContext (rs 0) = (.success t1, [1]) := by
      show pairLoop (rs 0) maxAttempts 0 [] = _
      rw [maxAttempts_eq,
        pairLoop_success (rs 0) t1 36 0 [] 1 (by omega) (by omega)
          (fun k hk1 hk2 => absurd hk1 (by omega)) h1]
      simp [List.range'_one]
    have e1 : pairDeviceWithContext (rs 1) = (.fatal (.http s b), [1]) := by
      show pairLoop (rs 1) maxAttempts 0 [] = _
      rw [maxAttempts_eq,
        pairLoop_fatal (rs 1) s b 36 0 [] 1 (by omega) (by omega)
          (fun k hk1 hk2 => absurd hk1 (by omega)) h2 hs]
      simp [List.range'_one]
    have e2 : pairDeviceWithContext (rs 2) = (.success t3, [1]) := by
      show pairLoop (rs 2) maxAttempts 0 [] = _
      rw [maxAttempts_eq,
        pairLoop_success (rs 2) t3 36 0 [] 1 (by omega) (by omega)
          (fun k hk1 hk2 => absurd hk1 (by omega)) h3]
      simp [List.range'_one]
    simp [pairDevicesParallel, show List.range 3 = [0, 1, 2] from rfl,
      e0, e1, e2, pairStep, ht1, ht3]
  · unfold pairDevicesParallel
    rw [foldl_pairStep_len]
    simp

/-- Witness for C4 at a concrete 3-device batch where the middle device is
rejected with HTTP 500. -/
theorem batch_pairing_spec_witness :
    pairDevicesParallel
        [⟨"h1", "p1meter"⟩, ⟨"h2", "kwhmeter"⟩, ⟨"h3", "battery"⟩]
        (fun i _ =>
          if i = 0 then .ok "t1"
          else if i = 1 then .httpError 500 "boom" else .ok "t3")
      = ([⟨"h1", "t1", "p1meter"⟩, ⟨"h3", "t3", "battery"⟩], 1) ∧
    (pairDevicesParallel []
          (fun _ _ => .ok "t")).1.length
        + (pairDevicesParallel [] (fun _ _ => .ok "t")).2
      = ([] : List DiscoveredDevice).length :=
  batch_pairing_spec ⟨"h1", "p1meter"⟩ ⟨"h2", "kwhmeter"⟩ ⟨"h3", "battery"⟩
    (fun i _ =>
      if i = 0 then .ok "t1"
      else if i = 1 then .httpError 500 "boom" else .ok "t3")
    (fun _ _ => .ok "t") [] "t1" "t3" "boom" 500
    (by decide) (by decide) (by omega)
    (by norm_num) (by norm_num) (by norm_num)

/-! ### Device adapter theorems -/

/-- C5: `SetBatteryMode` on a grid-meter device first attempts the in-band
control message; with the connection `Connected` the in-band send
succeeds and no HTTP call is made, while with the send failing (any
non-connected state, e.g. `Disconnected`) it falls back to an HTTP PUT
to `/api/batteries` carrying the same mode; the fallback's own result
decides the call, which therefore succeeds when the HTTP request
succeeds even though the connection is `Disconnected`. -/
theorem set_battery_mode_spec (dConn dDisc : P1MeterDevice) (mode : String)
    (put putOk putErr : String → String → Except ReqError BatteriesData)
    (bd : BatteriesData) (e : ReqError)
    (hc : dConn.connSt = .connected) (hd : dDisc.connSt = .disconnected)
    (hok : putOk ("https://" ++ dDisc.host ++ "/api/batteries") mode = .ok bd)
    (herr : putErr ("https://" ++ dDisc.host ++ "/api/batteries") mode
      = .error e) :
    dConn.SetBatteryMode put mode = (.ok (), [.wsSend mode]) ∧
    dDisc.SetBatteryMode putOk mode
      = (.ok (), [.wsSend mode,
          .httpPut ("https://" ++ dDisc.host ++ "/api/batteries") mode]) ∧
    dDisc.SetBatteryMode putErr mode
      = (.error e, [.wsSend mode,
          .httpPut ("https://" ++ dDisc.host ++ "/api/batteries") mode]) := by
  refine ⟨?_, ?_, ?_⟩ <;>
    simp [P1MeterDevice.SetBatteryMode, connSend, hc, hd, hok, herr]

/-- Witness for C5 at a concrete device, mode and HTTP collaborator. -/
theorem set_battery_mode_spec_witness :
    P1MeterDevice.SetBatteryMode
        ⟨⟨⟨30, none⟩⟩, ⟨30, none⟩, .connected, "host"⟩
        (fun _ _ => .ok ⟨800, 800, "zero", 0⟩) "zero"
      = (.ok (), [.wsSend "zero"]) ∧
    P1MeterDevice.SetBatteryMode
        ⟨⟨⟨30, none⟩⟩, ⟨30, none⟩, .disconnected, "host"⟩
        (fun _ _ => .ok ⟨800, 800, "zero", 0⟩) "zero"
      = (.ok (), [.wsSend "zero",
          .httpPut "https://host/api/batteries" "zero"]) ∧
    P1MeterDevice.SetBatteryMode
        ⟨⟨⟨30, none⟩⟩, ⟨30, none⟩, .disconnected, "host"⟩
        (fun _ _ => .error (.http 500 "boom")) "zero"
      = (.error (.http 500 "boom"), [.wsSend "zero",
          .httpPut "https://host/api/batteries" "zero"]) :=
  set_battery_mode_spec
    ⟨⟨⟨30, none⟩⟩, ⟨30, none⟩, .connected, "host"⟩
    ⟨⟨⟨30, none⟩⟩, ⟨30, none⟩, .disconnected, "host"⟩ "zero"
    (fun _ _ => .ok ⟨800, 800, "zero", 0⟩)
    (fun _ _ => .ok ⟨800, 800, "zero", 0⟩)
    (fun _ _ => .error (.http 500 "boom"))
    ⟨800, 800, "zero", 0⟩ (.http 500 "boom")
    rfl rfl rfl rfl

/-- C6: every device accessor fails with the cache's Stale condition
surfaced as the generic timeout error (`api.ErrTimeout`) whenever the
underlying cache has no fresh value; being total functions of the
cached state, the accessors never wait for a future update. -/
theorem stale_accessor_spec (T : Type) (gc : T → CommonMeasurement)
    (d : BaseMeterDevice T) (p : P1MeterDevice) (k : KWHMeterDevice)
    (now : Nat) (phases : Int) (inv pv : Bool)
    (hd : d.measurement.get now = .error ())
    (hp : p.base.measurement.get now = .error ())
    (hpb : p.batteriesData.get now = .error ())
    (hk : k.base.measurement.get now = .error ()) :
    d.GetMeasurement now = .error .timeout ∧
    BaseMeterDevice.GetPower gc d inv now = .error .timeout ∧
    BaseMeterDevice.GetPhasePowers gc d phases inv now = .error .timeout ∧
    BaseMeterDevice.GetPhaseCurrents gc d phases now = .error .timeout ∧
    BaseMeterDevice.GetPhaseVoltages gc d phases now = .error .timeout ∧
    p.GetPower now = .error .timeout ∧
    p.GetPhasePowers phases now = .error .timeout ∧
    p.GetTotalEnergy now = .error .timeout ∧
    p.GetBatteryPowerLimits now = .error .timeout ∧
    k.GetTotalEnergy pv now = .error .timeout := by
  refine ⟨?_, ?_, ?_, ?_, ?_, ?_, ?_, ?_, ?_, ?_⟩ <;>
    simp [BaseMeterDevice.GetMeasurement, BaseMeterDevice.GetPower,
      BaseMeterDevice.GetPhasePowers, BaseMeterDevice.GetPhaseCurrents,
      BaseMeterDevice.GetPhaseVoltages, P1MeterDevice.GetPower,
      P1MeterDevice.GetPhasePowers, P1MeterDevice.GetTotalEnergy,
      P1MeterDevice.GetBatteryPowerLimits, KWHMeterDevice.GetTotalEnergy,
      hd, hp, hpb, hk]

/-- Witness for C6 at concrete devices whose caches hold no value yet. -/
theorem stale_accessor_spec_witness :
    BaseMeterDevice.GetMeasurement (T := KWHMeasurement) ⟨⟨30, none⟩⟩ 0
      = .error .timeout ∧
    BaseMeterDevice.GetPower KWHMeasurement.common ⟨⟨30, none⟩⟩ true 0
      = .error .timeout ∧
    BaseMeterDevice.GetPhasePowers KWHMeasurement.common ⟨⟨30, none⟩⟩ 3 true 0
      = .error .timeout ∧
    BaseMeterDevice.GetPhaseCurrents KWHMeasurement.common ⟨⟨30, none⟩⟩ 3 0
      = .error .timeout ∧
    BaseMeterDevice.GetPhaseVoltages KWHMeasurement.common ⟨⟨30, none⟩⟩ 3 0
      = .error .timeout ∧
    P1MeterDevice.GetPower ⟨⟨⟨30, none⟩⟩, ⟨30, none⟩, .connected, "h"⟩ 0
      = .error .timeout ∧
    P1MeterDevice.GetPhasePowers ⟨⟨⟨30, none⟩⟩, ⟨30, none⟩, .connected, "h"⟩ 3 0
      = .error .timeout ∧
    P1MeterDevice.GetTotalEnergy ⟨⟨⟨30, none⟩⟩, ⟨30, none⟩, .connected, "h"⟩ 0
      = .error .timeout ∧
    P1MeterDevice.GetBatteryPowerLimits
        ⟨⟨⟨30, none⟩⟩, ⟨30, none⟩, .connected, "h"⟩ 0
      = .error .timeout ∧
    KWHMeterDevice.GetTotalEnergy ⟨⟨⟨30, none⟩⟩⟩ false 0
      = .error .timeout :=
  stale_accessor_spec KWHMeasurement KWHMeasurement.common ⟨⟨30, none⟩⟩
    ⟨⟨⟨30, none⟩⟩, ⟨30, none⟩, .connected, "h"⟩ ⟨⟨⟨30, none⟩⟩⟩
    0 3 true false rfl rfl rfl rfl

/-- C7: with a fresh measurement, the grid meter's `GetTotalEnergy` returns
the sum of the tariff-1 and tariff-2 import energies, and the energy
meter's `GetTotalEnergy` returns the export total under the
PV/production convention and the import total otherwise. -/
theorem total_energy_spec (p : P1MeterDevice) (k : KWHMeterDevice)
    (now : Nat) (m : P1Measurement) (km : KWHMeasurement)
    (hp : p.base.measurement.get now = .ok m)
    (hk : k.base.measurement.get now = .ok km) :
    p.GetTotalEnergy now = .ok (m.energyImportT1kWh + m.energyImportT2kWh) ∧
    k.GetTotalEnergy true now = .ok km.energyExportkWh ∧
    k.GetTotalEnergy false now = .ok km.energyImportkWh := by
  refine ⟨?_, ?_, ?_⟩ <;>
    simp [P1MeterDevice.GetTotalEnergy, KWHMeterDevice.GetTotalEnergy,
      BaseMeterDevice.GetMeasurement, hp, hk]

/-- Witness for C7 at concrete fresh measurements. -/
theorem total_energy_spec_witness :
    P1MeterDevice.GetTotalEnergy
        ⟨⟨⟨30, some (⟨⟨0, 0, 0, 0, 0, 0, 0, 0, 0, 0, 0, 0⟩, 10, 20, 1, 2⟩,
          0)⟩⟩, ⟨30, none⟩, .connected, "h"⟩ 0
      = .ok (10 + 20 : ℚ) ∧
    KWHMeterDevice.GetTotalEnergy
        ⟨⟨⟨30, some (⟨⟨0, 0, 0, 0, 0, 0, 0, 0, 0, 0, 0, 0⟩, 5, 7⟩, 0)⟩⟩⟩
        true 0
      = .ok (7 : ℚ) ∧
    KWHMeterDevice.GetTotalEnergy
        ⟨⟨⟨30, some (⟨⟨0, 0, 0, 0, 0, 0, 0, 0, 0, 0, 0, 0⟩, 5, 7⟩, 0)⟩⟩⟩
        false 0
      = .ok (5 : ℚ) :=
  total_energy_spec
    ⟨⟨⟨30, some (⟨⟨0, 0, 0, 0, 0, 0, 0, 0, 0, 0, 0, 0⟩, 10, 20, 1, 2⟩,
      0)⟩⟩, ⟨30, none⟩, .connected, "h"⟩
    ⟨⟨⟨30, some (⟨⟨0, 0, 0, 0, 0, 0, 0, 0, 0, 0, 0, 0⟩, 5, 7⟩, 0)⟩⟩⟩
    0
    ⟨⟨0, 0, 0, 0, 0, 0, 0, 0, 0, 0, 0, 0⟩, 10, 20, 1, 2⟩
    ⟨⟨0, 0, 0, 0, 0, 0, 0, 0, 0, 0, 0, 0⟩, 5, 7⟩
    rfl rfl

/-- C8: with a fresh measurement, each per-phase accessor called with phase
count 1 returns the aggregate value as the first of three outputs with
the remaining two zero, and called with phase count 3 returns the three
line values; `GetPhasePowers` with inversion requested negates every
returned value. -/
theorem phase_accessor_spec (T : Type) (gc : T → CommonMeasurement)
    (d : BaseMeterDevice T) (m : T) (now : Nat)
    (p : P1MeterDevice) (pm : P1Measurement)
    (h : d.measurement.get now = .ok m)
    (hp : p.base.measurement.get now = .ok pm) :
    BaseMeterDevice.GetPhasePowers gc d 1 false now
      = .ok ((gc m).powerW, 0, 0) ∧
    BaseMeterDevice.GetPhasePowers gc d 3 false now
      = .ok ((gc m).powerL1W, (gc m).powerL2W, (gc m).powerL3W) ∧
    BaseMeterDevice.GetPhasePowers gc d 1 true now
      = .ok (-(gc m).powerW, 0, 0) ∧
    BaseMeterDevice.GetPhasePowers gc d 3 true now
      = .ok (-(gc m).powerL1W, -(gc m).powerL2W, -(gc m).powerL3W) ∧
    BaseMeterDevice.GetPhaseCurrents gc d 1 now
      = .ok ((gc m).currentA, 0, 0) ∧
    BaseMeterDevice.GetPhaseCurrents gc d 3 now
      = .ok ((gc m).currentL1A, (gc m).currentL2A, (gc m).currentL3A) ∧
    BaseMeterDevice.GetPhaseVoltages gc d 1 now
      = .ok ((gc m).voltageV, 0, 0) ∧
    BaseMeterDevice.GetPhaseVoltages gc d 3 now
      = .ok ((gc m).voltageL1V, (gc m).voltageL2V, (gc m).voltageL3V) ∧
    p.GetPhasePowers 1 now = .ok (pm.common.powerW, 0, 0) ∧
    p.GetPhasePowers 3 now
      = .ok (pm.common.powerL1W, pm.common.powerL2W, pm.common.powerL3W) := by
  refine ⟨?_, ?_, ?_, ?_, ?_, ?_, ?_, ?_, ?_, ?_⟩ <;>
    simp [BaseMeterDevice.GetPhasePowers, BaseMeterDevice.GetPhaseCurrents,
      BaseMeterDevice.GetPhaseVoltages, P1MeterDevice.GetPhasePowers,
      BaseMeterDevice.GetMeasurement, h, hp]

/-- Witness for C8 at a concrete fresh measurement with distinct field
values. -/
theorem phase_accessor_spec_witness :
    BaseMeterDevice.GetPhasePowers KWHMeasurement.common
        ⟨⟨30, some (⟨⟨100, 1, 2, 3, 230, 231, 232, 233, 9, 4, 5, 6⟩, 0, 0⟩,
          0)⟩⟩ 1 false 0
      = .ok ((100 : ℚ), 0, 0) ∧
    BaseMeterDevice.GetPhasePowers KWHMeasurement.common
        ⟨⟨30, some (⟨⟨100, 1, 2, 3, 230, 231, 232, 233, 9, 4, 5, 6⟩, 0, 0⟩,
          0)⟩⟩ 3 false 0
      = .ok ((1 : ℚ), 2, 3) ∧
    BaseMeterDevice.GetPhasePowers KWHMeasurement.common
        ⟨⟨30, some (⟨⟨100, 1, 2, 3, 230, 231, 232, 233, 9, 4, 5, 6⟩, 0, 0⟩,
          0)⟩⟩ 1 true 0
      = .ok (-(100 : ℚ), 0, 0) ∧
    BaseMeterDevice.GetPhasePowers KWHMeasurement.common
        ⟨⟨30, some (⟨⟨100, 1, 2, 3, 230, 231, 232, 233, 9, 4, 5, 6⟩, 0, 0⟩,
          0)⟩⟩ 3 true 0
      = .ok (-(1 : ℚ), -2, -3) ∧
    BaseMeterDevice.GetPhaseCurrents KWHMeasurement.common
        ⟨⟨30, some (⟨⟨100, 1, 2, 3, 230, 231, 232, 233, 9, 4, 5, 6⟩, 0, 0⟩,
          0)⟩⟩ 1 0
      = .ok ((9 : ℚ), 0, 0) ∧
    BaseMeterDevice.GetPhaseCurrents KWHMeasurement.common
        ⟨⟨30, some (⟨⟨100, 1, 2, 3, 230, 231, 232, 233, 9, 4, 5, 6⟩, 0, 0⟩,
          0)⟩⟩ 3 0
      = .ok ((4 : ℚ), 5, 6) ∧
    BaseMeterDevice.GetPhaseVoltages KWHMeasurement.common
        ⟨⟨30, some (⟨⟨100, 1, 2, 3, 230, 231, 232, 233, 9, 4, 5, 6⟩, 0, 0⟩,
          0)⟩⟩ 1 0
      = .ok ((230 : ℚ), 0, 0) ∧
    BaseMeterDevice.GetPhaseVoltages KWHMeasurement.common
        ⟨⟨30, some (⟨⟨100, 1, 2, 3, 230, 231, 232, 233, 9, 4, 5, 6⟩, 0, 0⟩,
          0)⟩⟩ 3 0
      = .ok ((231 : ℚ), 232, 233) ∧
    P1MeterDevice.GetPhasePowers
        ⟨⟨⟨30, some (⟨⟨100, 1, 2, 3, 230, 231, 232, 233, 9, 4, 5, 6⟩,
          0, 0, 0, 0⟩, 0)⟩⟩, ⟨30, none⟩, .connected, "h"⟩ 1 0
      = .ok ((100 : ℚ), 0, 0) ∧
    P1MeterDevice.GetPhasePowers
        ⟨⟨⟨30, some (⟨⟨100, 1, 2, 3, 230, 231, 232, 233, 9, 4, 5, 6⟩,
          0, 0, 0, 0⟩, 0)⟩⟩, ⟨30, none⟩, .connected, "h"⟩ 3 0
      = .ok ((1 : ℚ), 2, 3) :=
  phase_accessor_spec KWHMeasurement KWHMeasurement.common
    ⟨⟨30, some (⟨⟨100, 1, 2, 3, 230, 231, 232, 233, 9, 4, 5, 6⟩, 0, 0⟩, 0)⟩⟩
    ⟨⟨100, 1, 2, 3, 230, 231, 232, 233, 9, 4, 5, 6⟩, 0, 0⟩ 0
    ⟨⟨⟨30, some (⟨⟨100, 1, 2, 3, 230, 231, 232, 233, 9, 4, 5, 6⟩,
      0, 0, 0, 0⟩, 0)⟩⟩, ⟨30, none⟩, .connected, "h"⟩
    ⟨⟨100, 1, 2, 3, 230, 231, 232, 233, 9, 4, 5, 6⟩, 0, 0, 0, 0⟩
    rfl rfl

/-- C10: for any phase count other than 1 — including 0, 2 and negative
values — each per-phase accessor behaves exactly as with phase count 3,
returning the three per-line fields; the 1-phase aggregate convention
applies only when the phase count equals exactly 1. -/
theorem phase_fallthrough_spec (T : Type) (gc : T → CommonMeasurement)
    (d : BaseMeterDevice T) (now : Nat) (phases : Int) (inv : Bool)
    (p : P1MeterDevice)
    (hph : phases ≠ 1) :
    BaseMeterDevice.GetPhasePowers gc d phases inv now
      = BaseMeterDevice.GetPhasePowers gc d 3 inv now ∧
    BaseMeterDevice.GetPhaseCurrents gc d phases now
      = BaseMeterDevice.GetPhaseCurrents gc d 3 now ∧
    BaseMeterDevice.GetPhaseVoltages gc d phases now
      = BaseMeterDevice.GetPhaseVoltages gc d 3 now ∧
    p.GetPhasePowers phases now = p.GetPhasePowers 3 now := by
  have h3 : (3 : Int) ≠ 1 := by decide
  refine ⟨?_, ?_, ?_, ?_⟩ <;>
    simp [BaseMeterDevice.GetPhasePowers, BaseMeterDevice.GetPhaseCurrents,
      BaseMeterDevice.GetPhaseVoltages, P1MeterDevice.GetPhasePowers,
      hph, h3]

/-- Witness for C10 at phase count 0. -/
theorem phase_fallthrough_spec_witness :
    BaseMeterDevice.GetPhasePowers KWHMeasurement.common ⟨⟨30, none⟩⟩ 0 false 0
      = BaseMeterDevice.GetPhasePowers KWHMeasurement.common ⟨⟨30, none⟩⟩
          3 false 0 ∧
    BaseMeterDevice.GetPhaseCurrents KWHMeasurement.common ⟨⟨30, none⟩⟩ 0 0
      = BaseMeterDevice.GetPhaseCurrents KWHMeasurement.common ⟨⟨30, none⟩⟩
          3 0 ∧
    BaseMeterDevice.GetPhaseVoltages KWHMeasurement.common ⟨⟨30, none⟩⟩ 0 0
      = BaseMeterDevice.GetPhaseVoltages KWHMeasurement.common ⟨⟨30, none⟩⟩
          3 0 ∧
    P1MeterDevice.GetPhasePowers
        ⟨⟨⟨30, none⟩⟩, ⟨30, none⟩, .connected, "h"⟩ 0 0
      = P1MeterDevice.GetPhasePowers
          ⟨⟨⟨30, none⟩⟩, ⟨30, none⟩, .connected, "h"⟩ 3 0 :=
  phase_fallthrough_spec KWHMeasurement KWHMeasurement.common ⟨⟨30, none⟩⟩
    0 0 false ⟨⟨⟨30, none⟩⟩, ⟨30, none⟩, .connected, "h"⟩ (by decide)

/-- C9: a `"measurement"` message whose payload decodes is stored in the
measurement cache, a `"batteries"` message on the grid-meter adapter is
stored in the battery cache, and any other message type is ignored
without error: the handler returns success and leaves both caches
unchanged. -/
theorem handle_message_spec (T : Type)
    (decode : RawMessage → Except String T)
    (d : BaseMeterDevice T) (m : T)
    (raw rawB rawP : RawMessage) (now : Nat)
    (p : P1MeterDevice) (b : BatteriesData) (pm : P1Measurement)
    (other : String)
    (hdec : decode raw = .ok m)
    (hb : decodeBatteries rawB = .ok b)
    (hpm : decodeP1 rawP = .ok pm)
    (h1 : other ≠ "measurement") (h2 : other ≠ "batteries") :
    d.handleMessage decode "measurement" raw now
      = .ok ⟨d.measurement.set m now⟩ ∧
    p.handleP1Message "batteries" rawB now
      = .ok { p with batteriesData := p.batteriesData.set b now } ∧
    p.handleP1Message "measurement" rawP now
      = .ok { p with base := ⟨p.base.measurement.set pm now⟩ } ∧
    d.handleMessage decode other raw now = .ok d ∧
    p.handleP1Message other raw now = .ok p := by
  refine ⟨?_, ?_, ?_, ?_, ?_⟩ <;>
    simp [BaseMeterDevice.handleMessage, P1MeterDevice.handleP1Message,
      hdec, hb, hpm, h1, h2]

/-- Witness for C9 at concrete payloads and the ignored type `"device"`. -/
theorem handle_message_spec_witness :
    BaseMeterDevice.handleMessage decodeKWH ⟨⟨30, none⟩⟩ "measurement"
        (.kwh ⟨⟨0, 0, 0, 0, 0, 0, 0, 0, 0, 0, 0, 0⟩, 5, 7⟩) 2
      = .ok ⟨Monitor.set ⟨30, none⟩
          ⟨⟨0, 0, 0, 0, 0, 0, 0, 0, 0, 0, 0, 0⟩, 5, 7⟩ 2⟩ ∧
    P1MeterDevice.handleP1Message
        ⟨⟨⟨30, none⟩⟩, ⟨30, none⟩, .connected, "h"⟩ "batteries"
        (.bat ⟨800, 800, "zero", 0⟩) 2
      = .ok ⟨⟨⟨30, none⟩⟩, Monitor.set ⟨30, none⟩ ⟨800, 800, "zero", 0⟩ 2,
          .connected, "h"⟩ ∧
    P1MeterDevice.handleP1Message
        ⟨⟨⟨30, none⟩⟩, ⟨30, none⟩, .connected, "h"⟩ "measurement"
        (.p1 ⟨⟨0, 0, 0, 0, 0, 0, 0, 0, 0, 0, 0, 0⟩, 10, 20, 1, 2⟩) 2
      = .ok ⟨⟨Monitor.set ⟨30, none⟩
          ⟨⟨0, 0, 0, 0, 0, 0, 0, 0, 0, 0, 0, 0⟩, 10, 20, 1, 2⟩ 2⟩,
          ⟨30, none⟩, .connected, "h"⟩ ∧
    BaseMeterDevice.handleMessage decodeKWH ⟨⟨30, none⟩⟩ "device"
        (.kwh ⟨⟨0, 0, 0, 0, 0, 0, 0, 0, 0, 0, 0, 0⟩, 5, 7⟩) 2
      = .ok ⟨⟨30, none⟩⟩ ∧
    P1MeterDevice.handleP1Message
        ⟨⟨⟨30, none⟩⟩, ⟨30, none⟩, .connected, "h"⟩ "device"
        (.kwh ⟨⟨0, 0, 0, 0, 0, 0, 0, 0, 0, 0, 0, 0⟩, 5, 7⟩) 2
      = .ok ⟨⟨⟨30, none⟩⟩, ⟨30, none⟩, .connected, "h"⟩ :=
  handle_message_spec KWHMeasurement decodeKWH ⟨⟨30, none⟩⟩
    ⟨⟨0, 0, 0, 0, 0, 0, 0, 0, 0, 0, 0, 0⟩, 5, 7⟩
    (.kwh ⟨⟨0, 0, 0, 0, 0, 0, 0, 0, 0, 0, 0, 0⟩, 5, 7⟩)
    (.bat ⟨800, 800, "zero", 0⟩)
    (.p1 ⟨⟨0, 0, 0, 0, 0, 0, 0, 0, 0, 0, 0, 0⟩, 10, 20, 1, 2⟩) 2
    ⟨⟨⟨30, none⟩⟩, ⟨30, none⟩, .connected, "h"⟩
    ⟨800, 800, "zero", 0⟩
    ⟨⟨0, 0, 0, 0, 0, 0, 0, 0, 0, 0, 0, 0⟩, 10, 20, 1, 2⟩
    "device" rfl rfl rfl (by decide) (by decide)

end HomeWizard
